import Mathlib

/-!
# Branches panel of lazygit (`pkg/gui/branches_panel.go`)

A shallow embedding of the handlers of the branches panel.  Handlers are
programs in a small monad `M` that threads the GUI state and records every
call that leaves the panel (git commands, modal panels, refreshes, renders,
log lines) in a trace.  Everything the file calls but does not define
(`createErrorPanel`, `GitCommand.Checkout`, `gui.refresh`, ...) is a field of
the environment `Env`, so each theorem holds for every behaviour of those
collaborators.
-/

namespace BranchesPanel

/-! ## Data model -/

/-- Modelled from the spec: the record `commands.Branch`, whose declaration is
outside `branches_panel.go`.  The panel reads the field `Name` and calls
`GetDisplayString`; the spec's Item has a `name` and a `displayLabel`. -/
structure Branch where
  Name : String
  displayLabel : String
  deriving DecidableEq, Repr

/-- Modelled from the spec: `Branch.GetDisplayString`, declared outside
`branches_panel.go`; it yields the item's display label. -/
def Branch.GetDisplayString (b : Branch) : String := b.displayLabel

/-- A `*gocui.View`: its name and the raw text written to it so far. -/
structure View where
  name : String
  buffer : String
  deriving DecidableEq, Repr

/-- A Go `error` value: `none` is `nil`, `some msg` carries `err.Error()`. -/
abbrev GoError := Option String

/-- The value returned by `git.NewBranchListBuilder`; `Build` is the list that
`builder.Build()` returns. -/
structure BranchListBuilder where
  Build : List Branch
  deriving DecidableEq, Repr

/-- The part of `*Gui` the panel reads and writes: `gui.State.Branches`, and
what `gui.g.View("branches")` currently yields (the view, or the lookup
error). -/
structure Gui where
  Branches : List Branch
  branchesView : Except String View

/-- The closures that the handlers hand to a confirmation or prompt panel,
each with the variables it captures. -/
inductive Continuation where
  /-- The closure of `handleForceCheckout`, capturing `branch`. -/
  | forceCheckout (branch : Branch)
  /-- The closure of `deleteBranch`, capturing `selectedBranch` and `force`. -/
  | deleteBranch (selectedBranch : Branch) (force : Bool)
  /-- The closure of `handleCheckoutByName`. -/
  | checkoutByName
  /-- The closure of `handleNewBranch`. -/
  | newBranch
  deriving DecidableEq, Repr

/-- One observable call made by the panel. -/
inductive Event where
  | logError (msg : String)
  | createErrorPanel (message : String)
  | createConfirmationPanel (v : Option View) (title message : String)
      (handleConfirm handleClose : Option Continuation)
  | createPromptPanel (v : Option View) (title : String) (handleConfirm : Continuation)
  | Checkout (name : String) (force : Bool)
  | NewBranch (name : String)
  | DeleteBranch (name : String) (force : Bool)
  | Merge (name : String)
  | GetBranchGraph (name : String)
  | refresh
  | renderGlobalOptions
  | renderString (viewName : String) (s : String)
  /-- The `go func() ...` statement of `handleBranchSelect`, capturing `v`. -/
  | goBranchSelect (v : Option View)
  /-- The call `gui.g.Update(...)` of `refreshBranches`. -/
  | Update
  | NewBranchListBuilder
  | resetOrigin
  /-- The call `gui.refreshStatus()`, with `gui.State.Branches` as it is then. -/
  | refreshStatus (branches : List Branch)
  deriving DecidableEq, Repr

/-- Everything the panel calls but does not define.  A command answers with
its Go `error`; lookups answer with their value. -/
structure Env where
  SLocalize : String → String
  TemplateLocalize : String → List (String × String) → String
  getItemPosition : Option View → Int
  trimmedContent : Option View → String
  createErrorPanel : String → GoError
  createConfirmationPanel : String → String → GoError
  createPromptPanel : String → GoError
  Checkout : String → Bool → GoError
  NewBranch : String → GoError
  DeleteBranch : String → Bool → GoError
  Merge : String → GoError
  GetBranchGraph : String → String × GoError
  renderGlobalOptions : GoError
  renderString : String → String → GoError
  NewBranchListBuilder : Except String BranchListBuilder
  resetOrigin : View → GoError
  refreshStatus : List Branch → GoError
  refresh : Gui → Gui

/-! ## The execution monad -/

/-- The mutable world of a run: the GUI state and the calls made so far. -/
structure World where
  gui : Gui
  trace : List Event

/-- How a run ends: it returns a value, or it stops in a Go runtime panic
(index out of range). -/
inductive Step (α : Type) where
  | done (a : α) (w : World)
  | panic (w : World)

/-- Programs over the world. -/
def M (α : Type) : Type := World → Step α

/-- Return a value without touching the world. -/
def M.pure {α : Type} (a : α) : M α := fun w => Step.done a w

/-- Sequencing; a panic skips the rest. -/
def M.bind {α β : Type} (m : M α) (f : α → M β) : M β := fun w =>
  match m w with
  | Step.done a w1 => f a w1
  | Step.panic w1 => Step.panic w1

instance : Monad M where
  pure := M.pure
  bind := M.bind

/-- Record a call in the trace. -/
def emit (e : Event) : M Unit := fun w =>
  Step.done () { w with trace := w.trace ++ [e] }

/-- Read the GUI state. -/
def getGui : M Gui := fun w => Step.done w.gui w

/-- Overwrite the GUI state. -/
def setGui (g : Gui) : M Unit := fun w => Step.done () { w with gui := g }

/-- A Go runtime panic. -/
def goPanic {α : Type} : M α := fun w => Step.panic w

/-- Go slice indexing `xs[i]`: panics unless `0 <= i < len(xs)`. -/
def index (xs : List Branch) (i : Int) : M Branch :=
  if 0 ≤ i then
    match xs[i.toNat]? with
    | some b => M.pure b
    | none => goPanic
  else goPanic

/-- Run a program on a GUI state with an empty trace. -/
def run {α : Type} (m : M α) (gui : Gui) : Step α := m { gui := gui, trace := [] }

/-- The calls made by a finished run, panic or not. -/
def Step.trace {α : Type} : Step α → List Event
  | Step.done _ w => w.trace
  | Step.panic w => w.trace

/-- The GUI state a run ends in. -/
def Step.gui {α : Type} : Step α → Gui
  | Step.done _ w => w.gui
  | Step.panic w => w.gui

/-- The value a run returns, if it returns. -/
def Step.result {α : Type} : Step α → Option α
  | Step.done a _ => some a
  | Step.panic _ => none

/-! ## Calls into the collaborators -/

/-- The call `gui.Log.Error` / `gui.Log.Errorf` with the formatted text. -/
def logError (msg : String) : M Unit := emit (Event.logError msg)

/-- What `gui.g.View("branches")` returns: the view (or nil) and the error. -/
def Gui.View (gui : Gui) : Option View × GoError :=
  match gui.branchesView with
  | Except.ok v => (some v, none)
  | Except.error e => (none, some e)

/-- The call `gui.g.View("branches")`. -/
def viewBranches : M (Option View × GoError) := fun w => Step.done w.gui.View w

/-- The call `gui.createErrorPanel(g, message)`. -/
def createErrorPanel (env : Env) (message : String) : M GoError := do
  emit (Event.createErrorPanel message)
  return env.createErrorPanel message

/-- The call `gui.createConfirmationPanel(g, v, title, message, handleConfirm, handleClose)`. -/
def createConfirmationPanel (env : Env) (v : Option View) (title message : String)
    (handleConfirm handleClose : Option Continuation) : M GoError := do
  emit (Event.createConfirmationPanel v title message handleConfirm handleClose)
  return env.createConfirmationPanel title message

/-- The call `gui.createPromptPanel(g, v, title, handleConfirm)`. -/
def createPromptPanel (env : Env) (v : Option View) (title : String)
    (handleConfirm : Continuation) : M GoError := do
  emit (Event.createPromptPanel v title handleConfirm)
  return env.createPromptPanel title

/-- The call `gui.GitCommand.Checkout(name, force)`. -/
def Checkout (env : Env) (name : String) (force : Bool) : M GoError := do
  emit (Event.Checkout name force)
  return env.Checkout name force

/-- The call `gui.GitCommand.NewBranch(name)`. -/
def NewBranch (env : Env) (name : String) : M GoError := do
  emit (Event.NewBranch name)
  return env.NewBranch name

/-- The call `gui.GitCommand.DeleteBranch(name, force)`. -/
def DeleteBranch (env : Env) (name : String) (force : Bool) : M GoError := do
  emit (Event.DeleteBranch name force)
  return env.DeleteBranch name force

/-- The call `gui.GitCommand.Merge(name)`. -/
def Merge (env : Env) (name : String) : M GoError := do
  emit (Event.Merge name)
  return env.Merge name

/-- The call `gui.GitCommand.GetBranchGraph(name)`: the output and the error. -/
def GetBranchGraph (env : Env) (name : String) : M (String × GoError) := do
  emit (Event.GetBranchGraph name)
  return env.GetBranchGraph name

/-- The call `gui.refresh()`. -/
def refresh (env : Env) : M Unit := do
  emit Event.refresh
  let gui ← getGui
  setGui (env.refresh gui)

/-- The call `gui.renderGlobalOptions()`. -/
def renderGlobalOptions (env : Env) : M GoError := do
  emit Event.renderGlobalOptions
  return env.renderGlobalOptions

/-- The call `gui.renderString(g, viewName, s)`. -/
def renderString (env : Env) (viewName s : String) : M GoError := do
  emit (Event.renderString viewName s)
  return env.renderString viewName s

/-- Go's `strings.HasPrefix(s, pre)`. -/
def HasPrefix (s pre : String) : Bool := pre.data.isPrefixOf s.data

/-- Go's `strings.Contains(s, sub)`: `sub` starts at some position of `s`.  The
panel does not call it; it states what "the message carries the signature"
means when the signature may stand anywhere in the message. -/
def Contains (s sub : String) : Bool := s.data.tails.any fun rest => sub.data.isPrefixOf rest

/-! ## The handlers -/

/-- `getSelectedBranch`: the element of `gui.State.Branches` at the item
position of `v`. -/
def getSelectedBranch (env : Env) (v : Option View) : M Branch := do
  let lineNumber := env.getItemPosition v
  let gui ← getGui
  index gui.Branches lineNumber

/-- `handleBranchPress`: soft checkout of the selected branch.  The arguments
`g` and `v` of the Go function are not used. -/
def handleBranchPress (env : Env) : M GoError := do
  let (v, err) ← viewBranches
  if let some e := err then
    logError ("Failed to get branch view at handleBranchPress: " ++ e ++ "\n")
  let index := env.getItemPosition v
  if index = 0 then
    let err ← createErrorPanel env (env.SLocalize "AlreadyCheckedOutBranch")
    if let some e := err then
      logError ("Failed to create error panel at handleBranchPress: " ++ e ++ "\n")
      return err
    return none
  let branch ← getSelectedBranch env v
  let err ← Checkout env branch.Name false
  if let some e := err then
    let err ← createErrorPanel env e
    if let some e2 := err then
      logError ("Failed to create error panel at handleBranchPress: " ++ e2 ++ "\n")
      return err
  refresh env
  return none

/-- The closure that `handleForceCheckout` passes as `handleConfirm`; `branch`
is the variable it captures.  Its own arguments `g` and `v` are not used. -/
def handleForceCheckoutConfirm (env : Env) (branch : Branch) : M GoError := do
  let err ← Checkout env branch.Name true
  if let some e := err then
    let err ← createErrorPanel env e
    if let some e2 := err then
      logError ("Failed to create error panel at handleForceCheckout: " ++ e2 ++ "\n")
      return err
  refresh env
  return none

/-- `handleForceCheckout`: asks for confirmation before a forced checkout of
the selected branch. -/
def handleForceCheckout (env : Env) (v : Option View) : M GoError := do
  let branch ← getSelectedBranch env v
  let message := env.SLocalize "SureForceCheckout"
  let title := env.SLocalize "ForceCheckoutBranch"
  let err ← createConfirmationPanel env v title message
    (some (Continuation.forceCheckout branch)) none
  if let some e := err then
    logError ("Failed to create confirmation panel at handleForceCheckout: " ++ e ++ "\n")
    return err
  return none

/-- The closure that `handleCheckoutByName` passes to the prompt; `v` is the
view it is called with. -/
def handleCheckoutByNameConfirm (env : Env) (v : Option View) : M GoError := do
  let err ← Checkout env (env.trimmedContent v) false
  if let some e := err then
    let err ← createErrorPanel env e
    if let some e2 := err then
      logError ("Failed to create error panel at handleCheckoutByName: " ++ e2 ++ "\n")
      return err
    return none
  refresh env
  return none

/-- `handleCheckoutByName`: prompts for a branch name to check out. -/
def handleCheckoutByName (env : Env) (v : Option View) : M GoError := do
  let err ← createPromptPanel env v (env.SLocalize "BranchName" ++ ":")
    Continuation.checkoutByName
  if let some e := err then
    logError ("Failed to create prompt panel at handleCheckoutByName: " ++ e ++ "\n")
    return err
  return none

/-- The body of the `go func()` statement of `handleBranchSelect`; `v` is the
variable it captures. -/
def handleBranchSelectGo (env : Env) (v : Option View) : M Unit := do
  let branch ← getSelectedBranch env v
  let (out, err) ← GetBranchGraph env branch.Name
  let mut diff := out
  if err ≠ none && HasPrefix diff "fatal: ambiguous argument" then
    diff := env.SLocalize "NoTrackingThisBranch"
  let _ ← renderString env "main" diff

/-- `handleBranchSelect`: renders the options and starts the goroutine that
renders the graph of the selected branch. -/
def handleBranchSelect (env : Env) (v : Option View) : M GoError := do
  let err ← renderGlobalOptions env
  if let some e := err then
    logError ("Failed to renderGlobalOptions at handleBranchSelect: " ++ e ++ "\n")
    return err
  let gui ← getGui
  if gui.Branches.length = 0 then
    return ← renderString env "main" (env.SLocalize "NoBranchesThisRepo")
  emit (Event.goBranchSelect v)
  return none

/-- The closure that `handleNewBranch` passes to the prompt; `v` is the view it
is called with. -/
def handleNewBranchConfirm (env : Env) (v : Option View) : M GoError := do
  let err ← NewBranch env (env.trimmedContent v)
  if let some e := err then
    return ← createErrorPanel env e
  refresh env
  handleBranchSelect env v

/-- `handleNewBranch`: prompts for the name of a branch off the current one. -/
def handleNewBranch (env : Env) (v : Option View) : M GoError := do
  let gui ← getGui
  let branch ← index gui.Branches 0
  let message := env.TemplateLocalize "NewBranchNameBranchOff" [("branchName", branch.Name)]
  let err ← createPromptPanel env v message Continuation.newBranch
  if let some e := err then
    logError e
    return err
  return none

/-- The closure that `deleteBranch` passes as `handleConfirm`; `selectedBranch`
and `force` are the variables it captures. -/
def deleteBranchConfirm (env : Env) (selectedBranch : Branch) (force : Bool) : M GoError := do
  let err ← DeleteBranch env selectedBranch.Name force
  if let some e := err then
    return ← createErrorPanel env e
  refresh env
  return none

/-- `deleteBranch`: asks for confirmation before deleting the selected
branch, unless it is the checked-out one. -/
def deleteBranch (env : Env) (v : Option View) (force : Bool) : M GoError := do
  let gui ← getGui
  let checkedOutBranch ← index gui.Branches 0
  let selectedBranch ← getSelectedBranch env v
  if checkedOutBranch.Name = selectedBranch.Name then
    return ← createErrorPanel env (env.SLocalize "CantDeleteCheckOutBranch")
  let title := env.SLocalize "DeleteBranch"
  let mut messageId := ""
  if force then
    messageId := "ForceDeleteBranchMessage"
  else
    messageId := "DeleteBranchMessage"
  let message := env.TemplateLocalize messageId [("selectedBranchName", selectedBranch.Name)]
  createConfirmationPanel env v title message
    (some (Continuation.deleteBranch selectedBranch force)) none

/-- `handleDeleteBranch`. -/
def handleDeleteBranch (env : Env) (v : Option View) : M GoError :=
  deleteBranch env v false

/-- `handleForceDeleteBranch`. -/
def handleForceDeleteBranch (env : Env) (v : Option View) : M GoError :=
  deleteBranch env v true

/-- `handleMerge`: merges the selected branch into the checked-out one.  The
deferred `gui.refresh()` runs after the return value has been computed. -/
def handleMerge (env : Env) (v : Option View) : M GoError := do
  let gui ← getGui
  let checkedOutBranch ← index gui.Branches 0
  let selectedBranch ← getSelectedBranch env v
  let body : M GoError := do
    if checkedOutBranch.Name = selectedBranch.Name then
      return ← createErrorPanel env (env.SLocalize "CantMergeBranchIntoItself")
    let err ← Merge env selectedBranch.Name
    if let some e := err then
      return ← createErrorPanel env e
    return none
  let ret ← body
  refresh env
  return ret

/-- Calling a closure with the view `v` the panel hands to it. -/
def Continuation.call (env : Env) (c : Continuation) (v : Option View) : M GoError :=
  match c with
  | Continuation.forceCheckout branch => handleForceCheckoutConfirm env branch
  | Continuation.deleteBranch selectedBranch force => deleteBranchConfirm env selectedBranch force
  | Continuation.checkoutByName => handleCheckoutByNameConfirm env v
  | Continuation.newBranch => handleNewBranchConfirm env v

/-- The answer of the user to a Confirmation modal. -/
inductive Resolution where
  | Confirm
  | Cancel
  deriving DecidableEq, Repr

/-- Modelled from the spec: `ModalStack.ResolveTop` for a Confirmation (the
panel code behind `createConfirmationPanel` is outside `branches_panel.go`):
the outcome Confirm or Cancel invokes the matching continuation, and a missing
continuation is a no-op. -/
def ResolveTop (env : Env) (handleConfirm handleClose : Option Continuation)
    (outcome : Resolution) (v : Option View) : M GoError :=
  let chosen := match outcome with
    | Resolution.Confirm => handleConfirm
    | Resolution.Cancel => handleClose
  match chosen with
  | some c => c.call env v
  | none => M.pure none

/-! ## Refreshing the panel -/

/-- The call `v.Clear()` on the branches view. -/
def viewClear : M Unit := fun w =>
  match w.gui.branchesView with
  | Except.ok v =>
    Step.done () { w with gui := { w.gui with branchesView := Except.ok { v with buffer := "" } } }
  | Except.error _ => Step.panic w

/-- The call `fmt.Fprintln(v, s)` on the branches view. -/
def viewFprintln (s : String) : M Unit := fun w =>
  match w.gui.branchesView with
  | Except.ok v =>
    Step.done ()
      { w with
        gui := { w.gui with
          branchesView := Except.ok { v with buffer := v.buffer ++ s ++ "\n" } } }
  | Except.error _ => Step.panic w

/-- The call `git.NewBranchListBuilder(gui.Log, gui.GitCommand)`. -/
def NewBranchListBuilder (env : Env) : M (Except String BranchListBuilder) := do
  emit Event.NewBranchListBuilder
  return env.NewBranchListBuilder

/-- The call `gui.resetOrigin(v)` on the branches view. -/
def resetOrigin (env : Env) : M GoError := fun w =>
  match w.gui.branchesView with
  | Except.ok v => Step.done (env.resetOrigin v) { w with trace := w.trace ++ [Event.resetOrigin] }
  | Except.error _ => Step.panic w

/-- The call `gui.refreshStatus()`. -/
def refreshStatus (env : Env) : M GoError := do
  let gui ← getGui
  emit (Event.refreshStatus gui.Branches)
  return env.refreshStatus gui.Branches

/-- The loop `for _, branch := range ... { fmt.Fprintln(v, branch.GetDisplayString()) }`. -/
def fprintBranches : List Branch → M Unit
  | [] => M.pure ()
  | branch :: rest => do
    viewFprintln branch.GetDisplayString
    fprintBranches rest

/-- The function that `refreshBranches` passes to `gui.g.Update`. -/
def refreshBranchesUpdate (env : Env) : M GoError := do
  let (_, err) ← viewBranches
  if let some e := err then
    logError ("Failed to get branches view at refreshbranches " ++ e ++ "\n")
    return err
  match ← NewBranchListBuilder env with
  | Except.error e =>
    logError ("Failed to create branchbuilder at refreshBranches: " ++ e ++ "\n")
    return some e
  | Except.ok builder =>
    let gui ← getGui
    setGui { gui with Branches := builder.Build }
    viewClear
    let gui ← getGui
    fprintBranches gui.Branches
    let err ← resetOrigin env
    if let some e := err then
      logError ("Failed to reset origin at refreshBranches: " ++ e ++ "\n")
      return err
    let err ← refreshStatus env
    if let some e := err then
      logError ("Failed to refresh statsu at refreshBranches: " ++ e ++ "\n")
      return err
    return none

/-- `refreshBranches`: queues the update and returns nil. -/
def refreshBranches : M GoError := do
  emit Event.Update
  return none

/-! ## Reading a trace -/

/-- The calls of a trace that reach the domain command interface. -/
def isDomainCall : Event → Bool
  | Event.Checkout _ _ => true
  | Event.NewBranch _ => true
  | Event.DeleteBranch _ _ => true
  | Event.Merge _ => true
  | _ => false

/-- The domain calls of a trace, in order. -/
def domainCalls (t : List Event) : List Event := t.filter isDomainCall

/-- How often `gui.refresh()` was called. -/
def refreshCount (t : List Event) : Nat := t.count Event.refresh

/-- The messages of the Error modals opened, in order. -/
def errorModals : List Event → List String
  | [] => []
  | Event.createErrorPanel m :: t => m :: errorModals t
  | _ :: t => errorModals t

/-- Whether a call opens a Confirmation modal. -/
def isConfirmation : Event → Bool
  | Event.createConfirmationPanel _ _ _ _ _ => true
  | _ => false

/-- How many Confirmation modals were opened. -/
def confirmationCount (t : List Event) : Nat := t.countP isConfirmation

/-- Whether a call is a log line. -/
def isLog : Event → Bool
  | Event.logError _ => true
  | _ => false

/-- The calls of a trace other than log lines. -/
def withoutLogs (t : List Event) : List Event := t.filter fun e => !isLog e

/-- The branch lists seen by the status refreshes of a trace, in order. -/
def statusRefreshes : List Event → List (List Branch)
  | [] => []
  | Event.refreshStatus bs :: t => bs :: statusRefreshes t
  | _ :: t => statusRefreshes t

/-- The text of a view holding one line per branch, in list order. -/
def renderLines : List Branch → String
  | [] => ""
  | branch :: rest => branch.GetDisplayString ++ "\n" ++ renderLines rest

/-! ## Preconditions -/

/-- The list is non-empty and `cur` is its element at index 0 (the checked-out
branch). -/
def Current (gui : Gui) (cur : Branch) : Prop := gui.Branches[0]? = some cur

/-- The item position of `v` is in range and `sel` is the element there. -/
def Selected (env : Env) (gui : Gui) (v : Option View) (sel : Branch) : Prop :=
  0 ≤ env.getItemPosition v ∧ gui.Branches[(env.getItemPosition v).toNat]? = some sel

instance (gui : Gui) (cur : Branch) : Decidable (Current gui cur) :=
  inferInstanceAs (Decidable (gui.Branches[0]? = some cur))

instance (env : Env) (gui : Gui) (v : Option View) (sel : Branch) :
    Decidable (Selected env gui v sel) :=
  inferInstanceAs (Decidable (_ ∧ _))

/-! ## Concrete inputs -/

/-- A branch named `name` with a padded label. -/
def mkBranch (name : String) : Branch := { Name := name, displayLabel := "  " ++ name }

/-- A view whose item position `exampleEnv` reads from the buffer length. -/
def cursorView (n : Nat) : View :=
  { name := "branches", buffer := String.mk (List.replicate n (Char.ofNat 120)) }

/-- An environment in which every command succeeds; the item position of a view
is the length of its buffer (0 for nil). -/
def okEnv : Env where
  SLocalize := fun k => k
  TemplateLocalize := fun k ps => k ++ String.join (ps.map fun p => " " ++ p.1 ++ "=" ++ p.2)
  getItemPosition := fun v => match v with
    | some u => (u.buffer.length : Int)
    | none => 0
  trimmedContent := fun v => match v with
    | some u => u.buffer
    | none => ""
  createErrorPanel := fun _ => none
  createConfirmationPanel := fun _ _ => none
  createPromptPanel := fun _ => none
  Checkout := fun _ _ => none
  NewBranch := fun _ => none
  DeleteBranch := fun _ _ => none
  Merge := fun _ => none
  GetBranchGraph := fun n => ("* commit of " ++ n, none)
  renderGlobalOptions := none
  renderString := fun _ _ => none
  NewBranchListBuilder := Except.ok { Build := [mkBranch "main", mkBranch "feature"] }
  resetOrigin := fun _ => none
  refreshStatus := fun _ => none
  refresh := fun g => g

/-- An environment in which every git command fails with a message, and the
panels still open. -/
def failEnv : Env :=
  { okEnv with
    Checkout := fun _ _ => some "error: checkout failed"
    NewBranch := fun _ => some "fatal: branch exists"
    DeleteBranch := fun _ _ => some "error: branch not fully merged"
    Merge := fun _ => some "CONFLICT"
    GetBranchGraph := fun _ =>
      ("fatal: ambiguous argument: unknown revision", some "exit status 128") }

/-- A failure output of git that carries the ambiguous-argument line after a
warning line. -/
def warnOutput : String :=
  "warning: refname is ambiguous\nfatal: ambiguous argument: unknown revision"

/-- An environment in which the graph command fails and both its output and
its error message are `warnOutput`. -/
def warnEnv : Env :=
  { okEnv with GetBranchGraph := fun _ => (warnOutput, some warnOutput) }

/-- A state with the two branches `main` (checked out) and `feature`. -/
def twoBranches : Gui :=
  { Branches := [mkBranch "main", mkBranch "feature"]
    branchesView := Except.ok (cursorView 1) }

/-- A state with the single branch `main`. -/
def oneBranch : Gui :=
  { Branches := [mkBranch "main"], branchesView := Except.ok (cursorView 0) }

/-- A state whose branch list is empty. -/
def noBranches : Gui :=
  { Branches := [], branchesView := Except.ok (cursorView 0) }

/-! ## Theorems -/

@[simp] theorem pure_eq {α : Type} (a : α) : (Pure.pure a : M α) = M.pure a := rfl

@[simp] theorem bind_eq {α β : Type} (m : M α) (f : α → M β) :
    (Bind.bind m f : M β) = M.bind m f := rfl

@[simp] theorem M.pure_apply {α : Type} (a : α) (w : World) : M.pure a w = Step.done a w := rfl

@[simp] theorem M.bind_apply {α β : Type} (m : M α) (f : α → M β) (w : World) :
    M.bind m f w = match m w with
      | Step.done a w1 => f a w1
      | Step.panic w1 => Step.panic w1 := rfl

@[simp] theorem emit_apply (e : Event) (w : World) :
    emit e w = Step.done () { gui := w.gui, trace := w.trace ++ [e] } := rfl

@[simp] theorem getGui_apply (w : World) : getGui w = Step.done w.gui w := rfl

@[simp] theorem setGui_apply (g : Gui) (w : World) :
    setGui g w = Step.done () { gui := g, trace := w.trace } := rfl

@[simp] theorem goPanic_apply {α : Type} (w : World) : (goPanic : M α) w = Step.panic w := rfl

@[simp] theorem viewBranches_apply (w : World) : viewBranches w = Step.done w.gui.View w := rfl

theorem index_zero_of_current (gui : Gui) (cur : Branch) (h : Current gui cur) (w : World) :
    index gui.Branches 0 w = Step.done cur w := by
  unfold Current at h
  simp [index, h]

theorem getSelectedBranch_of_selected (env : Env) (gui : Gui) (v : Option View) (sel : Branch)
    (h : Selected env gui v sel) (t : List Event) :
    getSelectedBranch env v { gui := gui, trace := t }
      = Step.done sel { gui := gui, trace := t } := by
  obtain ⟨h0, h1⟩ := h
  simp [getSelectedBranch, index, h0, h1]

/-- C1: on a non-empty list with an in-range cursor, when the selected branch
has the name of the branch at index 0, `deleteBranch` (soft or forced) makes
exactly one call, the Error modal with the CantDeleteCheckOutBranch text: no
DeleteBranch call, no Confirmation modal, no refresh. -/
theorem deleteBranch_current_rejected (env : Env) (gui : Gui) (v : Option View) (force : Bool)
    (cur sel : Branch) (hcur : Current gui cur) (hsel : Selected env gui v sel)
    (hname : sel.Name = cur.Name) :
    (run (deleteBranch env v force) gui).trace
        = [Event.createErrorPanel (env.SLocalize "CantDeleteCheckOutBranch")]
      ∧ errorModals (run (deleteBranch env v force) gui).trace
        = [env.SLocalize "CantDeleteCheckOutBranch"]
      ∧ domainCalls (run (deleteBranch env v force) gui).trace = []
      ∧ confirmationCount (run (deleteBranch env v force) gui).trace = 0
      ∧ refreshCount (run (deleteBranch env v force) gui).trace = 0
      ∧ (run (deleteBranch env v force) gui).result
        = some (env.createErrorPanel (env.SLocalize "CantDeleteCheckOutBranch")) := by
  have key : run (deleteBranch env v force) gui
      = Step.done (env.createErrorPanel (env.SLocalize "CantDeleteCheckOutBranch"))
          { gui := gui,
            trace := [Event.createErrorPanel (env.SLocalize "CantDeleteCheckOutBranch")] } := by
    simp [run, deleteBranch, index_zero_of_current gui cur hcur,
      getSelectedBranch_of_selected env gui v sel hsel, hname, createErrorPanel]
  rw [key]
  simp [Step.trace, Step.result, errorModals, domainCalls, isDomainCall, confirmationCount,
    isConfirmation, refreshCount]

/-- The single branch `main` is selected and current: deleting it is refused. -/
theorem deleteBranch_current_rejected_witness :
    Current oneBranch (mkBranch "main")
      ∧ Selected okEnv oneBranch (some (cursorView 0)) (mkBranch "main")
      ∧ (run (deleteBranch okEnv (some (cursorView 0)) true) oneBranch).trace
        = [Event.createErrorPanel "CantDeleteCheckOutBranch"] :=
  ⟨by decide, by decide,
    (deleteBranch_current_rejected okEnv oneBranch (some (cursorView 0)) true (mkBranch "main")
      (mkBranch "main") (by decide) (by decide) rfl).1⟩

/-- C3: whatever the branch list, when the item position of the branches view
is 0, `handleBranchPress` opens the Error modal with the
AlreadyCheckedOutBranch text, calls no git command, triggers no refresh and
returns what the error panel creation returned, leaving the state
unchanged. -/
theorem handleBranchPress_at_index_zero (env : Env) (gui : Gui)
    (h0 : env.getItemPosition gui.View.1 = 0) :
    errorModals (run (handleBranchPress env) gui).trace
        = [env.SLocalize "AlreadyCheckedOutBranch"]
      ∧ domainCalls (run (handleBranchPress env) gui).trace = []
      ∧ refreshCount (run (handleBranchPress env) gui).trace = 0
      ∧ (run (handleBranchPress env) gui).result
        = some (env.createErrorPanel (env.SLocalize "AlreadyCheckedOutBranch"))
      ∧ (run (handleBranchPress env) gui).gui.Branches = gui.Branches := by
  cases h : gui.View.2 <;>
    cases h2 : env.createErrorPanel (env.SLocalize "AlreadyCheckedOutBranch") <;>
    simp [run, handleBranchPress, logError, createErrorPanel, h0, h, h2, Step.trace,
      Step.result, Step.gui, domainCalls, isDomainCall, errorModals, refreshCount]

/-- With an empty list and the cursor at 0 the press is refused, not a crash. -/
theorem handleBranchPress_at_index_zero_witness :
    okEnv.getItemPosition noBranches.View.1 = 0
      ∧ errorModals (run (handleBranchPress okEnv) noBranches).trace
        = ["AlreadyCheckedOutBranch"]
      ∧ domainCalls (run (handleBranchPress okEnv) noBranches).trace = [] :=
  ⟨by decide, (handleBranchPress_at_index_zero okEnv noBranches (by decide)).1,
    (handleBranchPress_at_index_zero okEnv noBranches (by decide)).2.1⟩

/-- C4: on a non-empty list with an in-range cursor, when the selected branch
has the name of the branch at index 0, `handleMerge` opens the Error modal
with the CantMergeBranchIntoItself text and never calls Merge. -/
theorem handleMerge_self_rejected (env : Env) (gui : Gui) (v : Option View)
    (cur sel : Branch) (hcur : Current gui cur) (hsel : Selected env gui v sel)
    (hname : sel.Name = cur.Name) :
    (run (handleMerge env v) gui).trace
        = [Event.createErrorPanel (env.SLocalize "CantMergeBranchIntoItself"), Event.refresh]
      ∧ errorModals (run (handleMerge env v) gui).trace
        = [env.SLocalize "CantMergeBranchIntoItself"]
      ∧ domainCalls (run (handleMerge env v) gui).trace = []
      ∧ (run (handleMerge env v) gui).result
        = some (env.createErrorPanel (env.SLocalize "CantMergeBranchIntoItself")) := by
  have key : run (handleMerge env v) gui
      = Step.done (env.createErrorPanel (env.SLocalize "CantMergeBranchIntoItself"))
          { gui := env.refresh gui,
            trace := [Event.createErrorPanel (env.SLocalize "CantMergeBranchIntoItself"),
              Event.refresh] } := by
    simp [run, handleMerge, index_zero_of_current gui cur hcur,
      getSelectedBranch_of_selected env gui v sel hsel, hname, createErrorPanel, refresh]
  rw [key]
  simp [Step.trace, Step.result, errorModals, domainCalls, isDomainCall]

/-- Merging `main` into itself is refused. -/
theorem handleMerge_self_rejected_witness :
    Current twoBranches (mkBranch "main")
      ∧ Selected okEnv twoBranches (some (cursorView 0)) (mkBranch "main")
      ∧ (run (handleMerge okEnv (some (cursorView 0))) twoBranches).trace
        = [Event.createErrorPanel "CantMergeBranchIntoItself", Event.refresh] :=
  ⟨by decide, by decide,
    (handleMerge_self_rejected okEnv twoBranches (some (cursorView 0)) (mkBranch "main")
      (mkBranch "main") (by decide) (by decide) rfl).1⟩

/-- C7: on a non-empty list with an in-range cursor, `handleMerge` calls
`gui.refresh()` exactly once, as its last call, on every path: the merge is
refused, Merge succeeds, or Merge fails (then after the Error modal with the
failure message). -/
theorem handleMerge_refreshes_once (env : Env) (gui : Gui) (v : Option View)
    (cur sel : Branch) (hcur : Current gui cur) (hsel : Selected env gui v sel) :
    refreshCount (run (handleMerge env v) gui).trace = 1
      ∧ (run (handleMerge env v) gui).trace.getLast? = some Event.refresh
      ∧ (sel.Name = cur.Name → (run (handleMerge env v) gui).trace
          = [Event.createErrorPanel (env.SLocalize "CantMergeBranchIntoItself"), Event.refresh])
      ∧ (sel.Name ≠ cur.Name → env.Merge sel.Name = none →
          (run (handleMerge env v) gui).trace = [Event.Merge sel.Name, Event.refresh])
      ∧ (∀ msg, sel.Name ≠ cur.Name → env.Merge sel.Name = some msg →
          (run (handleMerge env v) gui).trace
            = [Event.Merge sel.Name, Event.createErrorPanel msg, Event.refresh]) := by
  have hne : ∀ h : ¬ sel.Name = cur.Name, ¬ cur.Name = sel.Name := fun h h1 => h h1.symm
  by_cases hname : sel.Name = cur.Name
  · simp [run, handleMerge, index_zero_of_current gui cur hcur,
      getSelectedBranch_of_selected env gui v sel hsel, hname, createErrorPanel, refresh,
      Step.trace, refreshCount]
  · cases hm : env.Merge sel.Name <;>
      simp [run, handleMerge, index_zero_of_current gui cur hcur,
        getSelectedBranch_of_selected env gui v sel hsel, hname, hne hname, createErrorPanel,
        refresh, Merge, hm, Step.trace, refreshCount]

/-- A failing merge of `feature` into `main` still refreshes, once. -/
theorem handleMerge_refreshes_once_witness :
    Current twoBranches (mkBranch "main")
      ∧ Selected failEnv twoBranches (some (cursorView 1)) (mkBranch "feature")
      ∧ refreshCount (run (handleMerge failEnv (some (cursorView 1))) twoBranches).trace = 1
      ∧ (run (handleMerge failEnv (some (cursorView 1))) twoBranches).trace
        = [Event.Merge "feature", Event.createErrorPanel "CONFLICT", Event.refresh] :=
  ⟨by decide, by decide,
    (handleMerge_refreshes_once failEnv twoBranches (some (cursorView 1)) (mkBranch "main")
      (mkBranch "feature") (by decide) (by decide)).1,
    (handleMerge_refreshes_once failEnv twoBranches (some (cursorView 1)) (mkBranch "main")
      (mkBranch "feature") (by decide) (by decide)).2.2.2.2 "CONFLICT" (by decide) rfl⟩

/-- C6: the closures of delete (soft or forced), checkout-by-name and
create-branch call their git command exactly once; `gui.refresh()` is called
once if the command succeeds and not at all if it fails; on failure the Error
modal shows the failure message verbatim, on success no Error modal opens.
After a successful NewBranch the refresh is followed by the whole Select
action, run on the refreshed state. -/
theorem continuation_refreshes_iff_success (env : Env) (gui : Gui) (v : Option View)
    (selectedBranch : Branch) (force : Bool) :
    (domainCalls (run (deleteBranchConfirm env selectedBranch force) gui).trace
        = [Event.DeleteBranch selectedBranch.Name force]
      ∧ refreshCount (run (deleteBranchConfirm env selectedBranch force) gui).trace
        = (if env.DeleteBranch selectedBranch.Name force = none then 1 else 0)
      ∧ errorModals (run (deleteBranchConfirm env selectedBranch force) gui).trace
        = (env.DeleteBranch selectedBranch.Name force).toList)
    ∧ (domainCalls (run (handleCheckoutByNameConfirm env v) gui).trace
        = [Event.Checkout (env.trimmedContent v) false]
      ∧ refreshCount (run (handleCheckoutByNameConfirm env v) gui).trace
        = (if env.Checkout (env.trimmedContent v) false = none then 1 else 0)
      ∧ errorModals (run (handleCheckoutByNameConfirm env v) gui).trace
        = (env.Checkout (env.trimmedContent v) false).toList)
    ∧ (domainCalls (run (handleNewBranchConfirm env v) gui).trace
        = [Event.NewBranch (env.trimmedContent v)]
      ∧ refreshCount (run (handleNewBranchConfirm env v) gui).trace
        = (if env.NewBranch (env.trimmedContent v) = none then 1 else 0)
      ∧ errorModals (run (handleNewBranchConfirm env v) gui).trace
        = (env.NewBranch (env.trimmedContent v)).toList
      ∧ (env.NewBranch (env.trimmedContent v) = none →
          (run (handleNewBranchConfirm env v) gui).trace
            = [Event.NewBranch (env.trimmedContent v), Event.refresh]
              ++ (run (handleBranchSelect env v) (env.refresh gui)).trace)) := by
  refine ⟨?_, ?_, ?_⟩
  · cases hc : env.DeleteBranch selectedBranch.Name force <;>
      simp [run, deleteBranchConfirm, DeleteBranch, hc, refresh, createErrorPanel, Step.trace,
        domainCalls, isDomainCall, errorModals, refreshCount]
  · cases hc : env.Checkout (env.trimmedContent v) false
    · simp [run, handleCheckoutByNameConfirm, Checkout, hc, refresh, Step.trace,
        domainCalls, isDomainCall, errorModals, refreshCount]
    · rename_i msg
      cases he : env.createErrorPanel msg <;>
      simp [run, handleCheckoutByNameConfirm, Checkout, hc, he, logError, createErrorPanel,
        Step.trace, domainCalls, isDomainCall, errorModals, refreshCount]
  · cases hc : env.NewBranch (env.trimmedContent v)
    · cases hr : env.renderGlobalOptions <;>
        by_cases hl : (env.refresh gui).Branches = [] <;>
        simp [run, handleNewBranchConfirm, handleBranchSelect, NewBranch, hc, hr, hl, refresh,
          renderGlobalOptions, renderString, logError, Step.trace, domainCalls, isDomainCall,
          errorModals, refreshCount]
    · simp [run, handleNewBranchConfirm, NewBranch, hc, createErrorPanel, Step.trace,
        domainCalls, isDomainCall, errorModals, refreshCount]

/-- A successful NewBranch refreshes once and re-runs the Select action. -/
theorem continuation_refreshes_iff_success_witness :
    okEnv.NewBranch (okEnv.trimmedContent none) = none
      ∧ (run (handleNewBranchConfirm okEnv none) twoBranches).trace
        = [Event.NewBranch "", Event.refresh, Event.renderGlobalOptions,
            Event.goBranchSelect none] :=
  ⟨rfl, (continuation_refreshes_iff_success okEnv twoBranches none (mkBranch "feature")
    false).2.2.2.2.2 rfl⟩

/-- C2: with an in-range cursor on the branch `sel`, `handleForceCheckout` and
(when `sel` is not the current branch) `deleteBranch` make no git call: apart
from a log line they only open a Confirmation modal, whose confirm closure
captures `sel` (and `force`) and whose cancel closure is absent.  In whatever
later state and view the modal is resolved, confirming calls exactly
`Checkout(sel.Name, true)`, respectively `DeleteBranch(sel.Name, force)`, and
cancelling makes no call at all. -/
theorem destructive_handlers_only_confirm (env : Env) (gui : Gui) (v : Option View)
    (sel : Branch) (hsel : Selected env gui v sel) :
    (withoutLogs (run (handleForceCheckout env v) gui).trace
        = [Event.createConfirmationPanel v (env.SLocalize "ForceCheckoutBranch")
            (env.SLocalize "SureForceCheckout") (some (Continuation.forceCheckout sel)) none]
      ∧ domainCalls (run (handleForceCheckout env v) gui).trace = [])
    ∧ (∀ (cur : Branch) (force : Bool), Current gui cur → sel.Name ≠ cur.Name →
        (run (deleteBranch env v force) gui).trace
          = [Event.createConfirmationPanel v (env.SLocalize "DeleteBranch")
              (env.TemplateLocalize
                (if force then "ForceDeleteBranchMessage" else "DeleteBranchMessage")
                [("selectedBranchName", sel.Name)])
              (some (Continuation.deleteBranch sel force)) none]
        ∧ domainCalls (run (deleteBranch env v force) gui).trace = [])
    ∧ (∀ (later : Env) (gui1 : Gui) (v1 : Option View) (force : Bool),
        domainCalls (run (ResolveTop later (some (Continuation.forceCheckout sel)) none
            Resolution.Confirm v1) gui1).trace = [Event.Checkout sel.Name true]
        ∧ domainCalls (run (ResolveTop later (some (Continuation.deleteBranch sel force)) none
            Resolution.Confirm v1) gui1).trace = [Event.DeleteBranch sel.Name force]
        ∧ (run (ResolveTop later (some (Continuation.forceCheckout sel)) none
            Resolution.Cancel v1) gui1).trace = []
        ∧ (run (ResolveTop later (some (Continuation.deleteBranch sel force)) none
            Resolution.Cancel v1) gui1).trace = []) := by
  refine ⟨?_, ?_, ?_⟩
  · cases hc : env.createConfirmationPanel (env.SLocalize "ForceCheckoutBranch")
        (env.SLocalize "SureForceCheckout") <;>
      simp [run, handleForceCheckout, getSelectedBranch_of_selected env gui v sel hsel,
        createConfirmationPanel, hc, logError, Step.trace, withoutLogs, isLog, domainCalls,
        isDomainCall]
  · intro cur force hcur hname
    have hne : ¬ cur.Name = sel.Name := fun h => hname h.symm
    cases force <;>
      simp [run, deleteBranch, index_zero_of_current gui cur hcur,
        getSelectedBranch_of_selected env gui v sel hsel, hne, createConfirmationPanel,
        Step.trace, domainCalls, isDomainCall]
  · intro later gui1 v1 force
    refine ⟨?_, ?_, ?_, ?_⟩
    · cases hc : later.Checkout sel.Name true
      · simp [run, ResolveTop, Continuation.call, handleForceCheckoutConfirm, Checkout, hc,
          refresh, Step.trace, domainCalls, isDomainCall]
      · rename_i msg
        cases he : later.createErrorPanel msg <;>
          simp [run, ResolveTop, Continuation.call, handleForceCheckoutConfirm, Checkout, hc, he,
            refresh, createErrorPanel, logError, Step.trace, domainCalls, isDomainCall]
    · cases hc : later.DeleteBranch sel.Name force <;>
        simp [run, ResolveTop, Continuation.call, deleteBranchConfirm, DeleteBranch, hc,
          refresh, createErrorPanel, Step.trace, domainCalls, isDomainCall]
    · simp [run, ResolveTop, Step.trace]
    · simp [run, ResolveTop, Step.trace]

/-- Force-deleting `feature` while `main` is checked out only asks for
confirmation. -/
theorem destructive_handlers_only_confirm_witness :
    Selected okEnv twoBranches (some (cursorView 1)) (mkBranch "feature")
      ∧ Current twoBranches (mkBranch "main")
      ∧ (run (deleteBranch okEnv (some (cursorView 1)) true) twoBranches).trace
        = [Event.createConfirmationPanel (some (cursorView 1)) "DeleteBranch"
            "ForceDeleteBranchMessage selectedBranchName=feature"
            (some (Continuation.deleteBranch (mkBranch "feature") true)) none] :=
  ⟨by decide, by decide,
    ((destructive_handlers_only_confirm okEnv twoBranches (some (cursorView 1))
      (mkBranch "feature") (by decide)).2.1 (mkBranch "main") true (by decide)
      (by decide)).1⟩

theorem branches_ne_nil_of_selected (env : Env) (gui : Gui) (v : Option View) (sel : Branch)
    (h : Selected env gui v sel) : gui.Branches ≠ [] := by
  intro hnil
  have h1 := h.2
  rw [hnil] at h1
  simp at h1

/-- C8, as stated, fails: a graph call that fails with a message carrying
"fatal: ambiguous argument" after a warning line is rendered raw, not as the
NoTrackingThisBranch message. -/
theorem graph_failure_signature_inside_renders_raw :
    Selected warnEnv twoBranches (some (cursorView 1)) (mkBranch "feature")
      ∧ warnEnv.GetBranchGraph "feature" = (warnOutput, some warnOutput)
      ∧ Contains warnOutput "fatal: ambiguous argument" = true
      ∧ HasPrefix warnOutput "fatal: ambiguous argument" = false
      ∧ (run (handleBranchSelectGo warnEnv (some (cursorView 1))) twoBranches).trace
        = [Event.GetBranchGraph "feature", Event.renderString "main" warnOutput]
      ∧ warnOutput ≠ warnEnv.SLocalize "NoTrackingThisBranch" := by
  decide

/-- C8, amended: on a non-empty list with an in-range cursor on `sel`, the
Select action (when the options render) only starts its goroutine, and the
goroutine calls `GetBranchGraph(sel.Name)` and renders one text to the main
view.  When the call fails and its output starts with "fatal: ambiguous
argument", that text is the localized NoTrackingThisBranch message; for every
other result, a failure carrying the signature elsewhere included, it is the
returned output, unchanged.  No Error modal is opened. -/
theorem branch_graph_rendering (env : Env) (gui : Gui) (v : Option View) (sel : Branch)
    (hsel : Selected env gui v sel) :
    (env.renderGlobalOptions = none →
        run (handleBranchSelect env v) gui
          = Step.done none
              { gui := gui, trace := [Event.renderGlobalOptions, Event.goBranchSelect v] })
    ∧ (∀ (out msg : String), env.GetBranchGraph sel.Name = (out, some msg) →
        HasPrefix out "fatal: ambiguous argument" = true →
        (run (handleBranchSelectGo env v) gui).trace
          = [Event.GetBranchGraph sel.Name,
              Event.renderString "main" (env.SLocalize "NoTrackingThisBranch")])
    ∧ (∀ (out : String) (err : GoError), env.GetBranchGraph sel.Name = (out, err) →
        (err = none ∨ HasPrefix out "fatal: ambiguous argument" = false) →
        (run (handleBranchSelectGo env v) gui).trace
          = [Event.GetBranchGraph sel.Name, Event.renderString "main" out])
    ∧ errorModals (run (handleBranchSelectGo env v) gui).trace = []
    ∧ (run (handleBranchSelectGo env v) gui).result = some () := by
  have hne := branches_ne_nil_of_selected env gui v sel hsel
  refine ⟨?_, ?_, ?_, ?_, ?_⟩
  · intro hr
    simp [run, handleBranchSelect, renderGlobalOptions, hr, hne]
  · intro out msg hg hp
    simp [run, handleBranchSelectGo, getSelectedBranch_of_selected env gui v sel hsel,
      GetBranchGraph, hg, hp, renderString, Step.trace]
  · intro out err hg hor
    rcases hor with h | h
    · simp [run, handleBranchSelectGo, getSelectedBranch_of_selected env gui v sel hsel,
        GetBranchGraph, hg, h, renderString, Step.trace]
    · simp [run, handleBranchSelectGo, getSelectedBranch_of_selected env gui v sel hsel,
        GetBranchGraph, hg, h, renderString, Step.trace]
  · by_cases hc : ((env.GetBranchGraph sel.Name).2 ≠ none
        ∧ HasPrefix (env.GetBranchGraph sel.Name).1 "fatal: ambiguous argument" = true) <;>
      simp [run, handleBranchSelectGo, getSelectedBranch_of_selected env gui v sel hsel,
        GetBranchGraph, hc, renderString, Step.trace, errorModals]
  · by_cases hc : ((env.GetBranchGraph sel.Name).2 ≠ none
        ∧ HasPrefix (env.GetBranchGraph sel.Name).1 "fatal: ambiguous argument" = true) <;>
      simp [run, handleBranchSelectGo, getSelectedBranch_of_selected env gui v sel hsel,
        GetBranchGraph, hc, renderString, Step.result]

/-- A graph call failing with the ambiguous-argument output renders the
no-tracking message. -/
theorem branch_graph_rendering_witness :
    Selected failEnv twoBranches (some (cursorView 1)) (mkBranch "feature")
      ∧ (run (handleBranchSelectGo failEnv (some (cursorView 1))) twoBranches).trace
        = [Event.GetBranchGraph "feature", Event.renderString "main" "NoTrackingThisBranch"] :=
  ⟨by decide,
    (branch_graph_rendering failEnv twoBranches (some (cursorView 1)) (mkBranch "feature")
      (by decide)).2.1 "fatal: ambiguous argument: unknown revision" "exit status 128" rfl
      (by decide)⟩

/-- C9, as stated, fails: on the empty list `getSelectedBranch` does not
return (the index is out of range) at any of the cursor positions tried, and
the handlers that read the selected or current branch stop the same way. -/
theorem empty_list_reads_out_of_range :
    noBranches.Branches = []
      ∧ (run (getSelectedBranch okEnv none) noBranches).result = none
      ∧ (run (getSelectedBranch okEnv (some (cursorView 3))) noBranches).result = none
      ∧ (run (deleteBranch okEnv none false) noBranches).result = none
      ∧ (run (handleMerge okEnv none) noBranches).result = none
      ∧ (run (handleNewBranch okEnv none) noBranches).result = none
      ∧ (run (handleForceCheckout okEnv none) noBranches).result = none
      ∧ (run (handleBranchPress okEnv)
          { Branches := [], branchesView := Except.ok (cursorView 1) }).result = none := by
  decide

/-- C9, amended: for a non-empty list and an in-range cursor,
`getSelectedBranch` returns exactly the element at the cursor position and
changes nothing.  On an empty list the Select action completes through its
length guard, rendering the NoBranchesThisRepo message without reading the
list, and the soft checkout completes when the cursor position is 0. -/
theorem getSelectedBranch_in_range (env : Env) (gui : Gui) (v : Option View) (sel : Branch)
    (hsel : Selected env gui v sel) :
    run (getSelectedBranch env v) gui = Step.done sel { gui := gui, trace := [] }
    ∧ (∀ (empty : Gui) (u : Option View), empty.Branches = [] →
        env.renderGlobalOptions = none →
        run (handleBranchSelect env u) empty
          = Step.done (env.renderString "main" (env.SLocalize "NoBranchesThisRepo"))
              { gui := empty,
                trace := [Event.renderGlobalOptions,
                  Event.renderString "main" (env.SLocalize "NoBranchesThisRepo")] })
    ∧ (∀ (empty : Gui) (u : Option View), empty.Branches = [] →
        ((run (handleBranchSelect env u) empty).result).isSome = true)
    ∧ (∀ (empty : Gui), empty.Branches = [] → env.getItemPosition empty.View.1 = 0 →
        ((run (handleBranchPress env) empty).result).isSome = true) := by
  refine ⟨?_, ?_, ?_, ?_⟩
  · simp [run, getSelectedBranch_of_selected env gui v sel hsel]
  · intro empty u he hr
    simp [run, handleBranchSelect, renderGlobalOptions, renderString, hr, he]
  · intro empty u he
    cases hr : env.renderGlobalOptions <;>
      simp [run, handleBranchSelect, renderGlobalOptions, renderString, logError, hr, he,
        Step.result]
  · intro empty _ h0
    cases h : empty.View.2 <;>
      cases h2 : env.createErrorPanel (env.SLocalize "AlreadyCheckedOutBranch") <;>
      simp [run, handleBranchPress, logError, createErrorPanel, h0, h, h2, Step.result]

/-- With the cursor on the second of two branches, `feature` is returned. -/
theorem getSelectedBranch_in_range_witness :
    Selected okEnv twoBranches (some (cursorView 1)) (mkBranch "feature")
      ∧ run (getSelectedBranch okEnv (some (cursorView 1))) twoBranches
        = Step.done (mkBranch "feature") { gui := twoBranches, trace := [] } :=
  ⟨by decide,
    (getSelectedBranch_in_range okEnv twoBranches (some (cursorView 1)) (mkBranch "feature")
      (by decide)).1⟩

theorem fprintBranches_apply (bs B : List Branch) (view : View) (t : List Event) :
    fprintBranches bs { gui := { Branches := B, branchesView := Except.ok view }, trace := t }
      = Step.done ()
          { gui := { Branches := B,
                     branchesView := Except.ok
                       { name := view.name, buffer := view.buffer ++ renderLines bs } },
            trace := t } := by
  induction bs generalizing view with
  | nil => simp [fprintBranches, renderLines]
  | cons b rest ih =>
    simp [fprintBranches, viewFprintln, renderLines, ih, String.append_assoc]

/-- C10: `refreshBranches` itself only queues its update function and returns
nil.  In that function a failing step ends the run.  If the view lookup or the
builder creation fails, the state (branch list and view text) is unchanged and
no status refresh runs.  Otherwise the stored list becomes the list the
builder builds and the view text is exactly one line per branch in list order;
if resetting the origin then fails no status refresh runs, and if it succeeds
the status refresh runs exactly once, seeing the new list. -/
theorem refreshBranchesUpdate_steps (env : Env) (gui : Gui) :
    run refreshBranches gui = Step.done none { gui := gui, trace := [Event.Update] }
    ∧ (∀ e, gui.branchesView = Except.error e →
        run (refreshBranchesUpdate env) gui
          = Step.done (some e)
              { gui := gui,
                trace := [Event.logError
                  ("Failed to get branches view at refreshbranches " ++ e ++ "\n")] })
    ∧ (∀ view e, gui.branchesView = Except.ok view →
        env.NewBranchListBuilder = Except.error e →
        run (refreshBranchesUpdate env) gui
          = Step.done (some e)
              { gui := gui,
                trace := [Event.NewBranchListBuilder, Event.logError
                  ("Failed to create branchbuilder at refreshBranches: " ++ e ++ "\n")] })
    ∧ (∀ view builder, gui.branchesView = Except.ok view →
        env.NewBranchListBuilder = Except.ok builder →
        (run (refreshBranchesUpdate env) gui).gui
            = { Branches := builder.Build,
                branchesView := Except.ok
                  { name := view.name, buffer := renderLines builder.Build } }
          ∧ (∀ e, env.resetOrigin { name := view.name, buffer := renderLines builder.Build }
                = some e →
              (run (refreshBranchesUpdate env) gui).result = some (some e)
                ∧ statusRefreshes (run (refreshBranchesUpdate env) gui).trace = [])
          ∧ (env.resetOrigin { name := view.name, buffer := renderLines builder.Build } = none →
              (run (refreshBranchesUpdate env) gui).result
                  = some (env.refreshStatus builder.Build)
                ∧ statusRefreshes (run (refreshBranchesUpdate env) gui).trace
                  = [builder.Build])) := by
  obtain ⟨B, bv⟩ := gui
  refine ⟨?_, ?_, ?_, ?_⟩
  · simp [run, refreshBranches]
  · intro e he
    simp only at he
    subst he
    simp [run, refreshBranchesUpdate, Gui.View, logError]
  · intro view e hv hb
    simp only at hv
    subst hv
    simp [run, refreshBranchesUpdate, Gui.View, logError, NewBranchListBuilder, hb]
  · intro view builder hv hb
    simp only at hv
    subst hv
    cases hr : env.resetOrigin { name := view.name, buffer := renderLines builder.Build }
    · cases hs : env.refreshStatus builder.Build <;>
        simp [run, refreshBranchesUpdate, Gui.View, logError, NewBranchListBuilder, hb,
          viewClear, fprintBranches_apply, resetOrigin, refreshStatus, hr, hs, Step.gui,
          Step.result, Step.trace, statusRefreshes]
    · simp [run, refreshBranchesUpdate, Gui.View, logError, NewBranchListBuilder, hb,
        viewClear, fprintBranches_apply, resetOrigin, refreshStatus, hr, Step.gui,
        Step.result, Step.trace, statusRefreshes]

/-- Refreshing the empty panel stores the two built branches and writes their
two lines. -/
theorem refreshBranchesUpdate_steps_witness :
    noBranches.branchesView = Except.ok (cursorView 0)
      ∧ okEnv.NewBranchListBuilder
        = Except.ok { Build := [mkBranch "main", mkBranch "feature"] }
      ∧ (run (refreshBranchesUpdate okEnv) noBranches).gui
        = { Branches := [mkBranch "main", mkBranch "feature"],
            branchesView := Except.ok
              { name := "branches", buffer := "  main\n  feature\n" } } :=
  ⟨rfl, rfl,
    ((refreshBranchesUpdate_steps okEnv noBranches).2.2.2 (cursorView 0)
      { Build := [mkBranch "main", mkBranch "feature"] } rfl rfl).1⟩

end BranchesPanel
